import Mathlib

/-!
Verification of the point-extraction pipeline of `src/app.py` (a Streamlit
dashboard for piling/drilling design points).

The Python source is shallowly embedded:

* XML documents (the result of `xml.etree.ElementTree` parsing) become the
  inductive type `Element`; `findall(".//lx:CgPoint", ns)` becomes a filter
  over the preorder list of proper descendants.
* `pandas.DataFrame` values produced by the parsers always carry the five
  columns `Name, Easting, Northing, Elevation, Source`; they are embedded as
  a `DataFrame` structure holding the column list and the ordered row list.
* Python `float` coordinate values are carried as `ℚ`.  The parsers never do
  arithmetic on them (values are passed through from conversion to plot), so
  the rational idealisation is faithful for every claim below.
* Fallible operations (XML parsing, zip opening, DXF reading) are embedded by
  passing the outcome of the external library explicitly: `Option Element`
  for `ET.parse`, `Option (List ZipMember)` for `zipfile.ZipFile`,
  `Option (List DxfEntity)` for `ezdxf.readmem`; `Except Unit` marks a raised
  exception that the embedded code does not catch.
-/

/-- Result of converting a decimal digit list to a natural number,
most significant digit first (how Python reads a digit run). -/
def digitsVal (cs : List Char) : Nat :=
  cs.foldl (fun a c => a * 10 + (c.toNat - 48)) 0

/-- Builds the rational `n / d` in lowest terms by dividing out
`Nat.gcd` explicitly (the standard `Rat` arithmetic is `@[irreducible]`,
so values are assembled directly from the reduced fraction). -/
def mkQ (n : ℤ) (d : ℕ) : ℚ :=
  let g := Nat.gcd n.natAbs d
  let n1 : ℤ := n / (g : ℤ)
  let d1 : ℕ := d / g
  if h : d1 ≠ 0 ∧ Nat.Coprime n1.natAbs d1 then ⟨n1, d1, h.1, h.2⟩ else 0

/-- The rational `sgn * digitsVal md * 10 ^ exp`: the value of a decimal
literal with mantissa digits `md` (integer and fraction digits run
together) and net decimal exponent `exp`. -/
def qOfDigits (sgn : ℤ) (md : List Char) (exp : ℤ) : ℚ :=
  let mval : ℤ := sgn * (digitsVal md : ℤ)
  if 0 ≤ exp then mkQ (mval * ((10 ^ exp.toNat : ℕ) : ℤ)) 1
  else mkQ mval (10 ^ (-exp).toNat)

/-- Models Python `float(token)` on the decimal-literal grammar
`[sign] (digits [. digits] | . digits) [ (e|E) [sign] digits ]`,
returning `none` exactly when Python raises `ValueError`.
(Python additionally accepts `inf`/`nan` spellings and digit underscores;
no claim or input in this development involves those forms.)
The value is carried exactly as a rational. -/
def pyFloat? (s : String) : Option ℚ :=
  let cs := s.toList
  let signAndRest : ℤ × List Char :=
    match cs with
    | '+' :: t => (1, t)
    | '-' :: t => (-1, t)
    | _ => (1, cs)
  let sgn := signAndRest.1
  let cs1 := signAndRest.2
  let ip := cs1.takeWhile (fun c => c.isDigit)
  let cs2 := cs1.drop ip.length
  let fracAndRest : List Char × List Char :=
    match cs2 with
    | '.' :: t => (t.takeWhile (fun c => c.isDigit),
                   t.drop ((t.takeWhile (fun c => c.isDigit)).length))
    | _ => ([], cs2)
  let fp := fracAndRest.1
  let cs3 := fracAndRest.2
  if ip.isEmpty && fracAndRest.1.isEmpty then none
  else
    match cs3 with
    | [] => some (qOfDigits sgn (ip ++ fp) (-(fp.length : ℤ)))
    | e :: t =>
      if e = 'e' ∨ e = 'E' then
        let esignAndRest : ℤ × List Char :=
          match t with
          | '+' :: u => (1, u)
          | '-' :: u => (-1, u)
          | _ => (1, t)
        let ed := esignAndRest.2.takeWhile (fun c => c.isDigit)
        if ed.isEmpty ∨ esignAndRest.2.drop ed.length ≠ [] then none
        else some (qOfDigits sgn (ip ++ fp)
          (esignAndRest.1 * (digitsVal ed : ℤ) - (fp.length : ℤ)))
      else none

/-- Python `s.split('\x7d')[0]`: the part of `s` before the first `\x7d`,
or all of `s` when no `\x7d` occurs. -/
def pySplitBraceHead (s : String) : String :=
  String.mk (s.toList.takeWhile (fun d => d ≠ '\x7d'))

/-- Python `s.strip(c)` for a single strip character `c`:
removes every leading and every trailing occurrence of `c`. -/
def pyStripChar (s : String) (c : Char) : String :=
  String.mk (((s.toList.dropWhile (fun d => d = c)).reverse.dropWhile
    (fun d => d = c)).reverse)

/-- Python `s.strip()` (no argument): whitespace removed from both ends. -/
def pyStrip (s : String) : String :=
  String.mk (((s.toList.dropWhile Char.isWhitespace).reverse.dropWhile
    Char.isWhitespace).reverse)

/-- Worker for `pySplitWs`: walk the characters, `acc` holding the current
piece reversed; whitespace closes a piece, empty pieces are dropped. -/
def splitWsAux : List Char → List Char → List String
  | [], acc => if acc.isEmpty then [] else [String.mk acc.reverse]
  | c :: rest, acc =>
    if c.isWhitespace then
      if acc.isEmpty then splitWsAux rest []
      else String.mk acc.reverse :: splitWsAux rest []
    else splitWsAux rest (c :: acc)

/-- Python `s.split()` (no separator): split on runs of whitespace,
discarding empty pieces. -/
def pySplitWs (s : String) : List String :=
  splitWsAux s.toList []

/-- Python `s.lower()` on the ASCII range. -/
def pyLower (s : String) : String :=
  String.mk (s.toList.map Char.toLower)

/-- Python `s.endswith(t)`. -/
def pyEndsWith (s t : String) : Bool :=
  t.toList.isSuffixOf s.toList

/-- An XML element as produced by `xml.etree.ElementTree`:
`tag` is the full tag string (`"\x7buri\x7dLocal"` for a namespaced element,
bare local name otherwise), `attrs` the attribute list, `text` the optional
text content (`none` embeds Python `None`), `children` the child elements in
document order. -/
inductive Element where
  | mk (tag : String) (attrs : List (String × String)) (text : Option String)
       (children : List Element)

/-- The full tag string of an element. -/
def Element.tag : Element → String
  | .mk t _ _ _ => t

/-- The attribute list of an element. -/
def Element.attrs : Element → List (String × String)
  | .mk _ a _ _ => a

/-- The optional text content of an element. -/
def Element.text : Element → Option String
  | .mk _ _ tx _ => tx

/-- The child elements, in document order. -/
def Element.children : Element → List Element
  | .mk _ _ _ c => c

mutual

/-- All proper descendants of an element in document (preorder) order:
the scope of `root.findall(".//...")`, which never yields the root itself. -/
def Element.descendants : Element → List Element
  | .mk _ _ _ cs => descendantsList cs

/-- Preorder listing of a forest: each tree's root followed by its
descendants. -/
def descendantsList : List Element → List Element
  | [] => []
  | c :: rest => c :: (Element.descendants c ++ descendantsList rest)

end

/-- Python `elem.get("name", "")`: first binding of the attribute,
defaulting to the empty string. -/
def Element.getAttrD (e : Element) (key dflt : String) : String :=
  match e.attrs.lookup key with
  | some v => v
  | none => dflt

/-- `root.findall(".//lx:CgPoint", ns)` after ElementPath resolves the
prefix: every proper descendant whose full tag equals `target`, in document
order. -/
def findallDesc (root : Element) (target : String) : List Element :=
  root.descendants.filter (fun e => e.tag = target)

/-- One design point row as built by the parsers in `app.py`
(dict keys `Name, Easting, Northing, Elevation, Source`). -/
structure PointRecord where
  name : String
  easting : ℚ
  northing : ℚ
  elevation : ℚ
  source : String
deriving DecidableEq

/-- The five columns every parser-produced DataFrame carries. -/
def pointCols : List String :=
  ["Name", "Easting", "Northing", "Elevation", "Source"]

/-- A pandas DataFrame as used in `app.py`: a column list and an ordered
row list.  Every parser hands back either `pd.DataFrame(rows)` (columns
inferred from the shared dict keys) or the explicit empty frame with the
same five columns. -/
structure DataFrame where
  columns : List String
  rows : List PointRecord
deriving DecidableEq

/-- `pd.DataFrame(columns=["Name", ...])`: zero rows, five known columns. -/
def emptyPointDF : DataFrame :=
  ⟨pointCols, []⟩

/-- Python `df.empty`. -/
def DataFrame.isEmptyDF (df : DataFrame) : Bool :=
  df.rows.isEmpty

/-- `text = (cg.text or "").strip().split()` (src/app.py line 51): the
whitespace tokens of the element's text, absent text read as `""`. -/
def cgTokens (cg : Element) : List String :=
  pySplitWs (pyStrip (cg.text.getD ""))

/-- The per-element body of the `for cg in root.findall(...)` loop of
`parse_landxml_points` (src/app.py lines 50-65): read the `name` attribute
with default `""`, tokenize the text, require at least three tokens,
convert the first three with `float`, and on success build the row tagged
`Source="LandXML"`; any failure skips the element (`continue`). -/
def cgRow? (cg : Element) : Option PointRecord :=
  let name := cg.getAttrD "name" ""
  let text := cgTokens cg
  if text.length ≥ 3 then
    match pyFloat? (text.getD 0 ""), pyFloat? (text.getD 1 ""), pyFloat? (text.getD 2 "") with
    | some easting, some northing, some elev =>
      some ⟨name, easting, northing, elev, "LandXML"⟩
    | _, _, _ => none
  else none

/-- The namespace-qualified search tag of `parse_landxml_points`
(src/app.py lines 45-49): the URI detected by
`root.tag.split('\x7d')[0].strip('\x7b')`, wrapped back into
`\x7buri\x7dCgPoint` by ElementPath when resolving `lx:CgPoint`. -/
def cgTarget (root : Element) : String :=
  "\x7b" ++ pyStripChar (pySplitBraceHead root.tag) '\x7b' ++ "\x7d" ++ "CgPoint"

/-- `parse_landxml_points` (src/app.py lines 35-68) applied to an already
parsed tree: detect the namespace from the root tag, find all `CgPoint`
descendants qualified with it, accumulate the valid rows, and return
`pd.DataFrame(rows)` when any row was built, else the empty five-column
frame. -/
def parse_landxml_points_root (root : Element) : DataFrame :=
  let rows := (findallDesc root (cgTarget root)).filterMap cgRow?
  if rows ≠ [] then ⟨pointCols, rows⟩ else emptyPointDF

/-- `parse_landxml_points` on raw bytes: `ET.parse(io.BytesIO(xml_bytes))`
either yields a tree (embedded as `some root`) or raises `ParseError`
(embedded as `none`); the function body has no handler, so the error
propagates (`Except.error`). -/
def parse_landxml_points (xml : Option Element) : Except Unit DataFrame :=
  match xml with
  | none => .error ()
  | some root => .ok (parse_landxml_points_root root)

/-- A model-space entity as seen by `parse_dxf_points` through `ezdxf`:
only `POINT` entities (handle plus 3D location) and `INSERT` block
references (block name, handle, insertion point) matter; everything else
is never selected by the two `msp.query` calls. -/
inductive DxfEntity where
  | point (handle : String) (x y z : ℚ)
  | insert (name handle : String) (x y z : ℚ)
  | other
deriving DecidableEq

/-- Whether `msp.query("POINT")` selects the entity. -/
def DxfEntity.isPointEnt : DxfEntity → Bool
  | .point _ _ _ _ => true
  | _ => false

/-- Whether `msp.query("INSERT")` selects the entity. -/
def DxfEntity.isInsertEnt : DxfEntity → Bool
  | .insert _ _ _ _ _ => true
  | _ => false

/-- The row built for one `POINT` entity (src/app.py lines 85-93). -/
def dxfPointRow : DxfEntity → Option PointRecord
  | .point h x y z => some ⟨"POINT_" ++ h, x, y, z, "DXF/POINT"⟩
  | _ => none

/-- The row built for one `INSERT` entity (src/app.py lines 97-105). -/
def dxfInsertRow : DxfEntity → Option PointRecord
  | .insert n h x y z => some ⟨"BLK_" ++ n ++ "_" ++ h, x, y, z, "DXF/INSERT"⟩
  | _ => none

/-- `parse_dxf_points` (src/app.py lines 71-110).  `available` embeds the guard
on `ezdxf is None` (lines 11-14, 76-77): when the library is
missing the function returns the empty five-column frame at once.  `doc`
embeds the outcome of `ezdxf.readmem(dxf_bytes)`: `none` when reading the
bytes raises (malformed document, uncaught), `some msp` giving the
model-space entity list in traversal order.  The body makes two passes:
all `POINT` rows first, then all `INSERT` rows. -/
def parse_dxf_points (available : Bool) (doc : Option (List DxfEntity)) :
    Except Unit DataFrame :=
  if available = false then .ok emptyPointDF
  else
    match doc with
    | none => .error ()
    | some msp =>
      let rows := (msp.filter DxfEntity.isPointEnt).filterMap dxfPointRow ++
                  (msp.filter DxfEntity.isInsertEnt).filterMap dxfInsertRow
      if rows ≠ [] then .ok ⟨pointCols, rows⟩ else .ok emptyPointDF

/-- One member of a zip archive as consumed by `parse_lok_points`:
its listed `name` and the outcome of `zf.read(name)` followed by
`parse_landxml_points` on those bytes — `none` when that pair of calls
raises (the `except Exception: continue` case), `some root` when the member
bytes parse as XML with root `root`. -/
structure ZipMember where
  name : String
  content : Option Element

/-- The per-member body of the `for name in zf.namelist()` loop of
`parse_lok_points` (src/app.py lines 126-134): the frame this member
appends to `rows`, or `none` when the member is not appended (name does
not end in `.xml`, reading or parsing raised, or the frame was empty). -/
def lokKeep? (m : ZipMember) : Option DataFrame :=
  if pyEndsWith (pyLower m.name) ".xml" then
    match m.content with
    | none => none
    | some root =>
      let dfx := parse_landxml_points_root root
      if dfx.isEmptyDF then none else some dfx
  else none

/-- `parse_lok_points` (src/app.py lines 113-141).  The archive argument
embeds `zipfile.ZipFile(io.BytesIO(lok_bytes))`: `none` when opening
raises `BadZipFile` (caught: the function returns the empty frame), `some
members` giving `zf.namelist()` order.  Members whose lowercased name ends
in `.xml` are parsed with the LandXML parser, failures are discarded, and
only non-empty member frames are kept; the kept frames are concatenated
with `pd.concat(rows, ignore_index=True)`. -/
def parse_lok_points (archive : Option (List ZipMember)) : DataFrame :=
  match archive with
  | none => emptyPointDF
  | some members =>
    let frames := members.filterMap lokKeep?
    if frames ≠ [] then ⟨pointCols, frames.flatMap (fun f => f.rows)⟩
    else emptyPointDF

/-- The raw bytes of an uploaded file, embedded through the outcomes of the
three external decoders `app.py` can hand them to. -/
structure RawBytes where
  asXml : Option Element
  asZip : Option (List ZipMember)
  asDxf : Option (List DxfEntity)

/-- What `load_design_file` (src/app.py lines 144-172) hands back to
`page_home` for a non-`None` upload: dispatch on the lowercased file-name
extension; `.xml` runs the LandXML parser with no handler around it, so a
parse error propagates; `.dxf` likewise for the DXF parser; `.lok` runs the
archive parser, which never raises; any other extension reports
"unsupported format" and yields `none`.  The final
`df.reset_index(drop=True)` only renumbers the pandas index and leaves
columns and row order unchanged, so it is the identity here. -/
def load_design_file (available : Bool) (fname : String) (raw : RawBytes) :
    Except Unit (Option DataFrame) :=
  let f := pyLower fname
  if pyEndsWith f ".xml" then (parse_landxml_points raw.asXml).map some
  else if pyEndsWith f ".dxf" then (parse_dxf_points available raw.asDxf).map some
  else if pyEndsWith f ".lok" then .ok (some (parse_lok_points raw.asZip))
  else .ok none

/-- The session state `app.py` keeps in `st.session_state`: the current
page name and the single `design_points_df` slot. -/
structure Session where
  page : String
  design_points_df : Option DataFrame

/-- Session init (src/app.py lines 24-28): page `"home"`, no table. -/
def initSession : Session :=
  ⟨"home", none⟩

/-- The design-upload handling of `page_home` (src/app.py lines 275-284)
for one supplied file: run `load_design_file`; a raised parse error
propagates out of the script run and leaves the session untouched; a
`None` or empty result stores nothing; a non-empty frame is assigned
wholesale to `design_points_df`, after which the overview button (when
pressed, `goOverview`) sets the page. -/
def page_home_load (s : Session) (available : Bool) (fname : String)
    (raw : RawBytes) (goOverview : Bool) : Session :=
  match load_design_file available fname raw with
  | .error _ => s
  | .ok none => s
  | .ok (some df) =>
    if df.isEmptyDF then s
    else
      let s1 : Session := ⟨s.page, some df⟩
      if goOverview then ⟨"overview", s1.design_points_df⟩ else s1

/-- One plotly trace as built by the two view builders: either the 2D
`go.Scatter` or the 3D `go.Scatter3d`, with the data columns, the label
column, and the literal style arguments from the source. -/
inductive Trace where
  | scatter2d (x y : List ℚ) (text : List String) (mode textposition : String)
      (markerSize : Nat) (name : String)
  | scatter3d (x y z : List ℚ) (text : List String) (mode textposition : String)
      (markerSize : Nat) (name : String)
deriving DecidableEq

/-- A plotly figure as far as `app.py` configures one: trace list, title,
axis titles, the y-axis scale anchor of the plan view, and the 3D scene
aspect mode of the orbit view.  `go.Figure()` is the record with every
field at its default. -/
structure Figure where
  traces : List Trace := []
  title : Option String := none
  xaxisTitle : Option String := none
  yaxisTitle : Option String := none
  legendOrientation : Option String := none
  yScaleAnchor : Option (String × Nat) := none
  sceneAxisTitles : Option (String × String × String) := none
  sceneAspectMode : Option String := none
deriving DecidableEq

/-- `build_local_plan_view` (src/app.py lines 179-206): empty placeholder
`go.Figure()` for an absent or empty table, otherwise one 2D scatter of
Easting against Northing labelled by Name, titled, with the y axis
anchored to the x axis at ratio 1. -/
def build_local_plan_view (df : Option DataFrame) : Figure :=
  match df with
  | none => {}
  | some d =>
    if d.isEmptyDF then {}
    else
      { traces := [Trace.scatter2d (d.rows.map (fun r => r.easting))
          (d.rows.map (fun r => r.northing)) (d.rows.map (fun r => r.name))
          "markers+text" "top center" 8 "Design Points"],
        title := some "Local 2D Plan View (Design Points)",
        xaxisTitle := some "Easting",
        yaxisTitle := some "Northing",
        legendOrientation := some "h",
        yScaleAnchor := some ("x", 1) }

/-- `build_3d_orbit_view` (src/app.py lines 209-237): empty placeholder
`go.Figure()` for an absent or empty table, otherwise one 3D scatter of
Easting, Northing, Elevation labelled by Name, with data-driven scene
aspect. -/
def build_3d_orbit_view (df : Option DataFrame) : Figure :=
  match df with
  | none => {}
  | some d =>
    if d.isEmptyDF then {}
    else
      { traces := [Trace.scatter3d (d.rows.map (fun r => r.easting))
          (d.rows.map (fun r => r.northing)) (d.rows.map (fun r => r.elevation))
          (d.rows.map (fun r => r.name)) "markers+text" "top center" 4
          "Design Points"],
        title := some "3D Orbit View (Design Points)",
        sceneAxisTitles := some ("Easting", "Northing", "Elevation"),
        sceneAspectMode := some "data" }

/-- One run of `page_overview` (src/app.py lines 290-327) with the chosen
view mode and whether the back button was pressed: reads
`design_points_df`, builds at most one figure from it, and writes only the
page name (back navigation); the table slot is never assigned. -/
def page_overview_step (s : Session) (viewMode : String) (back : Bool) :
    Session × Option Figure :=
  match s.design_points_df with
  | none => (if back then ⟨"home", s.design_points_df⟩ else s, none)
  | some df =>
    if df.isEmptyDF then (if back then ⟨"home", s.design_points_df⟩ else s, none)
    else
      let s1 : Session := if back then ⟨"home", s.design_points_df⟩ else s
      if viewMode = "Local 2D Plan" then
        (s1, some (build_local_plan_view (some df)))
      else if viewMode = "3D Orbit" then
        (s1, some (build_3d_orbit_view (some df)))
      else (s1, none)

/-- A `CgPoint` element the loop accepts: at least three tokens, the first
three all convertible by `float`. -/
def cgValid (cg : Element) : Prop :=
  (cgTokens cg).length ≥ 3 ∧
  (pyFloat? ((cgTokens cg).getD 0 "")).isSome = true ∧
  (pyFloat? ((cgTokens cg).getD 1 "")).isSome = true ∧
  (pyFloat? ((cgTokens cg).getD 2 "")).isSome = true

instance (cg : Element) : Decidable (cgValid cg) := by
  unfold cgValid
  infer_instance

/-- The row an accepted `CgPoint` element yields: name attribute, then the
first three tokens positionally as Easting, Northing, Elevation, tagged
`"LandXML"`. -/
def cgRowOf (cg : Element) : PointRecord :=
  ⟨cg.getAttrD "name" "",
   (pyFloat? ((cgTokens cg).getD 0 "")).getD 0,
   (pyFloat? ((cgTokens cg).getD 1 "")).getD 0,
   (pyFloat? ((cgTokens cg).getD 2 "")).getD 0,
   "LandXML"⟩

/-- Total version of `dxfPointRow` (junk off the `POINT` constructor,
never used there). -/
def dxfPointRowT : DxfEntity → PointRecord
  | .point h x y z => ⟨"POINT_" ++ h, x, y, z, "DXF/POINT"⟩
  | _ => ⟨"", 0, 0, 0, ""⟩

/-- Total version of `dxfInsertRow` (junk off the `INSERT` constructor,
never used there). -/
def dxfInsertRowT : DxfEntity → PointRecord
  | .insert n h x y z => ⟨"BLK_" ++ n ++ "_" ++ h, x, y, z, "DXF/INSERT"⟩
  | _ => ⟨"", 0, 0, 0, ""⟩

/-- The rows one archive member contributes to the `.lok` scan: nothing
unless its lowercased name ends in `.xml`, nothing when reading or parsing
it raises, otherwise whatever the LandXML parser extracts from it. -/
def lokMemberRows (m : ZipMember) : List PointRecord :=
  if pyEndsWith (pyLower m.name) ".xml" then
    match m.content with
    | none => []
    | some root => (parse_landxml_points_root root).rows
  else []

/-- The spec's example document: a root in namespace `uri` whose only
child is `<CgPoint name="P1">100.0 200.0 5.5</CgPoint>` in the same
namespace. -/
def exDoc (uri : String) : Element :=
  .mk ("\x7b" ++ uri ++ "\x7d" ++ "LandXML") []
    none
    [.mk ("\x7b" ++ uri ++ "\x7d" ++ "CgPoint") [("name", "P1")]
      (some "100.0 200.0 5.5") []]

/-- A namespace URI as it can actually occur in a parsed tag: it contains
neither brace character. -/
def plainUri (uri : String) : Prop :=
  '\x7b' ∉ uri.toList ∧ '\x7d' ∉ uri.toList

/-- A valid point element in namespace `u`: the spec's example element. -/
def exCgGood : Element :=
  .mk "\x7bu\x7dCgPoint" [("name", "P1")] (some "100.0 200.0 5.5") []

/-- A point element with only two coordinate tokens. -/
def exCgBad : Element :=
  .mk "\x7bu\x7dCgPoint" [("name", "B1")] (some "1.0 2.0") []

/-- A point element with no text content at all. -/
def exCgNoText : Element :=
  .mk "\x7bu\x7dCgPoint" [("name", "T1")] none []

/-- A document holding a short element followed by a valid one. -/
def exDocMixed : Element :=
  .mk "\x7bu\x7dLandXML" [] none [exCgBad, exCgGood]

/-- A document holding a textless element followed by a valid one. -/
def exDocNoText : Element :=
  .mk "\x7bu\x7dLandXML" [] none [exCgNoText, exCgGood]

/-- A document holding two valid point elements. -/
def exDocTwo : Element :=
  .mk "\x7bu\x7dLandXML" [] none
    [.mk "\x7bu\x7dCgPoint" [("name", "A")] (some "1.0 2.0 3.0") [],
     .mk "\x7bu\x7dCgPoint" [("name", "B")] (some "4.0 5.0 6.0") []]

/-! ## General lemmas about the embedded operations -/

/-- `parse_landxml_points_root` always returns the five columns and the
rows harvested by the loop, also when that harvest is empty. -/
theorem parse_landxml_rows (root : Element) :
    parse_landxml_points_root root =
      ⟨pointCols, (findallDesc root (cgTarget root)).filterMap cgRow?⟩ := by
  unfold parse_landxml_points_root
  by_cases h : (findallDesc root (cgTarget root)).filterMap cgRow? = []
  · simp [h, emptyPointDF]
  · simp [h]

/-- An accepted element yields exactly its positional row. -/
theorem cgRow?_eq_some {cg : Element} (h : cgValid cg) :
    cgRow? cg = some (cgRowOf cg) := by
  obtain ⟨h3, h0, h1, h2⟩ := h
  obtain ⟨e, he⟩ := Option.isSome_iff_exists.mp h0
  obtain ⟨n, hn⟩ := Option.isSome_iff_exists.mp h1
  obtain ⟨el, hel⟩ := Option.isSome_iff_exists.mp h2
  unfold cgRow? cgRowOf
  rw [if_pos h3]
  simp only [he, hn, hel, Option.getD_some]

/-- A short or non-numeric element is skipped. -/
theorem cgRow?_eq_none {cg : Element}
    (h : (cgTokens cg).length < 3 ∨
      pyFloat? ((cgTokens cg).getD 0 "") = none ∨
      pyFloat? ((cgTokens cg).getD 1 "") = none ∨
      pyFloat? ((cgTokens cg).getD 2 "") = none) :
    cgRow? cg = none := by
  by_cases h3 : (cgTokens cg).length ≥ 3
  · unfold cgRow?
    simp only [if_pos h3]
    rcases h0 : pyFloat? ((cgTokens cg).getD 0 "") with _ | e <;>
      rcases h1 : pyFloat? ((cgTokens cg).getD 1 "") with _ | n <;>
      rcases h2 : pyFloat? ((cgTokens cg).getD 2 "") with _ | el <;>
      (simp_all; try omega)
  · unfold cgRow?
    simp only [if_neg h3]

/-- `cgRow?` never looks at the tag or the children of the element. -/
theorem cgRow?_mk_tag (t t2 : String) (a : List (String × String))
    (tx : Option String) (c c2 : List Element) :
    cgRow? (.mk t a tx c) = cgRow? (.mk t2 a tx c2) := rfl

/-- `takeWhile` passes over a block that satisfies the predicate. -/
theorem takeWhile_append_all {α} (p : α → Bool) (l r : List α)
    (h : ∀ a ∈ l, p a = true) :
    (l ++ r).takeWhile p = l ++ r.takeWhile p := by
  induction l with
  | nil => simp
  | cons a t ih =>
    simp only [List.cons_append, List.takeWhile_cons, h a (by simp)]
    rw [ih (fun x hx => h x (by simp [hx]))]
    simp

/-- `dropWhile` keeps a list whose elements all fail the predicate. -/
theorem dropWhile_eq_self_all {α} (p : α → Bool) (l : List α)
    (h : ∀ a ∈ l, p a = false) :
    l.dropWhile p = l := by
  cases l with
  | nil => rfl
  | cons a t => simp [List.dropWhile_cons, h a (by simp)]

/-- Namespace detection on a tag `\x7buri\x7dLocal` recovers `uri`
whenever `uri` contains no brace, as in any real parsed document. -/
theorem ns_detect (uri rest : String)
    (hb : '\x7b' ∉ uri.toList) (hd : '\x7d' ∉ uri.toList) :
    pyStripChar (pySplitBraceHead ("\x7b" ++ uri ++ "\x7d" ++ rest)) '\x7b' = uri := by
  have hsplit : pySplitBraceHead ("\x7b" ++ uri ++ "\x7d" ++ rest) =
      String.mk ('\x7b' :: uri.toList) := by
    unfold pySplitBraceHead
    congr 1
    have h0 : ("\x7b" ++ uri ++ "\x7d" ++ rest).toList =
        (('\x7b' :: uri.toList) ++ ['\x7d']) ++ rest.toList := rfl
    rw [h0, List.append_assoc]
    simp only [List.cons_append, List.nil_append]
    rw [List.takeWhile_cons]
    rw [if_pos (by decide : decide ('\x7b' ≠ '\x7d') = true)]
    rw [takeWhile_append_all (fun d => decide (d ≠ '\x7d')) uri.toList ('\x7d' :: rest.toList)
      (fun a ha => decide_eq_true (fun (hc : a = '\x7d') => hd (hc ▸ ha)))]
    simp
  rw [hsplit]
  unfold pyStripChar
  have hlist : ((((String.mk ('\x7b' :: uri.toList)).toList.dropWhile
      (fun d => d = '\x7b')).reverse.dropWhile (fun d => d = '\x7b')).reverse) = uri.toList := by
    rw [show (String.mk ('\x7b' :: uri.toList)).toList = '\x7b' :: uri.toList from rfl]
    rw [List.dropWhile_cons]
    rw [if_pos (by decide : decide ('\x7b' = '\x7b') = true)]
    rw [dropWhile_eq_self_all (fun d => decide (d = '\x7b')) uri.toList
      (fun a ha => decide_eq_false (fun (hc : a = '\x7b') => hb (hc ▸ ha)))]
    rw [dropWhile_eq_self_all (fun d => decide (d = '\x7b')) uri.toList.reverse
      (fun a ha => decide_eq_false
        (fun (hc : a = '\x7b') => hb (hc ▸ List.mem_reverse.mp ha)))]
    exact List.reverse_reverse _
  rw [hlist]
  rfl

/-- The rows a member contributes through `lokKeep?` are `lokMemberRows`. -/
theorem lokKeep?_rows (m : ZipMember) :
    ((lokKeep? m).map DataFrame.rows).getD [] = lokMemberRows m := by
  unfold lokKeep? lokMemberRows
  by_cases hx : pyEndsWith (pyLower m.name) ".xml" = true
  · simp only [if_pos hx]
    cases hc : m.content with
    | none => rfl
    | some root =>
      by_cases he : (parse_landxml_points_root root).isEmptyDF = true
      · have hr : (parse_landxml_points_root root).rows = [] :=
          List.isEmpty_iff.mp he
        simp [he, hr]
      · simp [he]
  · simp [hx]

/-- Concatenating the kept frames spells out to the per-member rows. -/
theorem lok_frames_rows (members : List ZipMember) :
    ((members.filterMap lokKeep?).flatMap fun f => f.rows) =
      members.flatMap lokMemberRows := by
  induction members with
  | nil => rfl
  | cons m t ih =>
    rw [List.filterMap_cons]
    cases hk : lokKeep? m with
    | none =>
      have hm := lokKeep?_rows m
      rw [hk] at hm
      simp only [Option.map_none', Option.getD_none] at hm
      rw [List.flatMap_cons, ← hm, ih]
      rfl
    | some f =>
      have hm := lokKeep?_rows m
      rw [hk] at hm
      simp only [Option.map_some', Option.getD_some] at hm
      rw [List.flatMap_cons, List.flatMap_cons, ih, hm]

/-- `parse_lok_points` on any archive that opens: five columns, and the
member contributions concatenated in listing order. -/
theorem parse_lok_rows (members : List ZipMember) :
    parse_lok_points (some members) = ⟨pointCols, members.flatMap lokMemberRows⟩ := by
  unfold parse_lok_points
  rw [← lok_frames_rows]
  by_cases h : members.filterMap lokKeep? = []
  · simp [h, emptyPointDF]
  · simp [h]

/-- On the `POINT`-filtered list the partial row builder is total. -/
theorem dxf_points_map (l : List DxfEntity) :
    (l.filter DxfEntity.isPointEnt).filterMap dxfPointRow =
      (l.filter DxfEntity.isPointEnt).map dxfPointRowT := by
  rw [List.filterMap_eq_map_iff_forall_eq_some]
  intro x hx
  have hp := List.of_mem_filter hx
  cases x <;> simp_all [dxfPointRow, dxfPointRowT, DxfEntity.isPointEnt]

/-- On the `INSERT`-filtered list the partial row builder is total. -/
theorem dxf_inserts_map (l : List DxfEntity) :
    (l.filter DxfEntity.isInsertEnt).filterMap dxfInsertRow =
      (l.filter DxfEntity.isInsertEnt).map dxfInsertRowT := by
  rw [List.filterMap_eq_map_iff_forall_eq_some]
  intro x hx
  have hp := List.of_mem_filter hx
  cases x <;> simp_all [dxfInsertRow, dxfInsertRowT, DxfEntity.isInsertEnt]

/-- With the library present, `parse_dxf_points` returns the five columns
and the two passes in order: all points, then all block references. -/
theorem parse_dxf_ok (msp : List DxfEntity) :
    parse_dxf_points true (some msp) = .ok ⟨pointCols,
      (msp.filter DxfEntity.isPointEnt).map dxfPointRowT ++
      (msp.filter DxfEntity.isInsertEnt).map dxfInsertRowT⟩ := by
  unfold parse_dxf_points
  simp only [Bool.true_eq_false, if_false]
  rw [dxf_points_map, dxf_inserts_map]
  by_cases h : (msp.filter DxfEntity.isPointEnt).map dxfPointRowT ++
      (msp.filter DxfEntity.isInsertEnt).map dxfInsertRowT = []
  · simp [h, emptyPointDF]
  · simp [h]

/-- The value carried for the token `5.5`. -/
theorem mkQ_11_2 : mkQ 11 2 = 11 / 2 := by
  have h : mkQ 11 2 = Rat.mk' 11 2 := by decide
  rw [h, Rat.mk'_eq_divInt, Rat.divInt_eq_div]
  norm_num

/-! ## The claims -/

/-- Claim C7: an input to the archive extractor that does not open as a
valid zip (`BadZipFile`, embedded as the `none` archive outcome) yields
the empty table with the five known columns and zero rows; the function
returns normally (its type raises nothing) instead of erroring. -/
theorem claim_C7_bad_zip_empty :
    parse_lok_points none = emptyPointDF ∧
    (parse_lok_points none).rows = [] ∧
    (parse_lok_points none).columns = pointCols := ⟨rfl, rfl, rfl⟩

/-- Claim C8: with the CAD library unavailable (`ezdxf is None`),
`parse_dxf_points` returns the empty five-column table for every input,
never an error. -/
theorem claim_C8_no_ezdxf_empty :
    ∀ doc : Option (List DxfEntity),
      parse_dxf_points false doc = .ok emptyPointDF ∧
      emptyPointDF.rows = [] ∧ emptyPointDF.columns = pointCols :=
  fun _ => ⟨rfl, rfl, rfl⟩

/-- Claim C2: the session starts with no current table, and every
successful load (a parse that returned a non-`None`, non-empty frame)
replaces the single `design_points_df` slot wholesale with exactly the
parsed frame.  The slot's `Option DataFrame` type is the whole state:
there is never more than one current table. -/
theorem claim_C2_single_current_table :
    initSession.design_points_df = none ∧
    ∀ (s : Session) (available : Bool) (fname : String) (raw : RawBytes)
      (go : Bool) (df : DataFrame),
      load_design_file available fname raw = .ok (some df) →
      df.isEmptyDF = false →
      (page_home_load s available fname raw go).design_points_df = some df := by
  refine ⟨rfl, ?_⟩
  intro s available fname raw go df hload hempty
  unfold page_home_load
  rw [hload]
  simp only [hempty]
  cases go <;> simp

/-- Witness for C2: loading the example LandXML file into a fresh session
stores exactly the parsed one-row table. -/
theorem claim_C2_single_current_table_witness :
    (page_home_load ⟨"home", none⟩ true "site.xml" ⟨some (exDoc "u"), none, none⟩
        false).design_points_df =
      some ⟨pointCols, [⟨"P1", 100, 200, mkQ 11 2, "LandXML"⟩]⟩ :=
  claim_C2_single_current_table.2 ⟨"home", none⟩ true "site.xml"
    ⟨some (exDoc "u"), none, none⟩ false
    ⟨pointCols, [⟨"P1", 100, 200, mkQ 11 2, "LandXML"⟩]⟩ (by rfl) (by decide)

/-- Claim C6: a byte input that is not well-formed XML makes
`parse_landxml_points` raise, and `load_design_file` has no handler
around the `.xml` branch, so the error propagates to its caller. -/
theorem claim_C6_malformed_xml_propagates :
    ∀ (raw : RawBytes) (available : Bool) (fname : String),
      raw.asXml = none →
      pyEndsWith (pyLower fname) ".xml" = true →
      parse_landxml_points raw.asXml = .error () ∧
      load_design_file available fname raw = .error () := by
  intro raw available fname hx hf
  constructor
  · rw [hx]
    rfl
  · unfold load_design_file
    simp only [hf, if_true, if_pos]
    rw [hx]
    rfl

/-- Witness for C6: unparsable bytes uploaded as `design.xml` error out of
the whole load call. -/
theorem claim_C6_malformed_xml_propagates_witness :
    parse_landxml_points (RawBytes.mk none none none).asXml = .error () ∧
    load_design_file true "design.xml" ⟨none, none, none⟩ = .error () :=
  claim_C6_malformed_xml_propagates ⟨none, none, none⟩ true "design.xml" rfl (by decide)

/-- Claim C9: one overview interaction never writes the table slot
(switching between the two view modes leaves the table unchanged), the
pure view builders return structurally identical figures on repeated
invocation, and an absent or empty table produces the empty placeholder
`go.Figure()` rather than an error. -/
theorem claim_C9_renderers_pure :
    (∀ (s : Session) (mode : String) (back : Bool),
      ((page_overview_step s mode back).1).design_points_df = s.design_points_df) ∧
    (∀ df : Option DataFrame,
      build_local_plan_view df = build_local_plan_view df ∧
      build_3d_orbit_view df = build_3d_orbit_view df) ∧
    (build_local_plan_view none = {} ∧ build_3d_orbit_view none = {}) ∧
    (∀ df : DataFrame, df.rows = [] →
      build_local_plan_view (some df) = {} ∧ build_3d_orbit_view (some df) = {}) := by
  refine ⟨?_, fun df => ⟨rfl, rfl⟩, ⟨rfl, rfl⟩, ?_⟩
  · intro s mode back
    unfold page_overview_step
    rcases hd : s.design_points_df with _ | df
    · cases back <;> simp [hd]
    · by_cases he : df.isEmptyDF = true
      · cases back <;> simp [hd, he]
      · by_cases h2 : mode = "Local 2D Plan"
        · cases back <;> simp [hd, he, h2]
        · by_cases h3 : mode = "3D Orbit"
          · cases back <;> simp [hd, he, h2, h3]
          · cases back <;> simp [hd, he, h2, h3]
  · intro df hrows
    have he : df.isEmptyDF = true := List.isEmpty_iff.mpr hrows
    constructor
    · unfold build_local_plan_view
      simp [he]
    · unfold build_3d_orbit_view
      simp [he]

/-- Witness for C9: the overview step on a loaded session keeps its
table, and the empty table renders as the placeholder figure in both
views. -/
theorem claim_C9_renderers_pure_witness :
    ((page_overview_step ⟨"overview", some emptyPointDF⟩ "Local 2D Plan" false).1).design_points_df
        = some emptyPointDF ∧
    build_local_plan_view (some emptyPointDF) = {} ∧
    build_3d_orbit_view (some emptyPointDF) = {} :=
  ⟨claim_C9_renderers_pure.1 ⟨"overview", some emptyPointDF⟩ "Local 2D Plan" false,
   (claim_C9_renderers_pure.2.2.2 emptyPointDF rfl).1,
   (claim_C9_renderers_pure.2.2.2 emptyPointDF rfl).2⟩

/-- Claim C4: with the CAD library present, a model space with P point
entities and B block references yields exactly P+B records, all points
first (named `POINT_handle`, tagged `DXF/POINT`, coordinates from the 3D
location), then all block references (named `BLK_name_handle`, tagged
`DXF/INSERT`, coordinates from the insertion point), each pass in
traversal order. -/
theorem claim_C4_dxf_points_then_inserts :
    ∀ msp : List DxfEntity,
      parse_dxf_points true (some msp) = .ok ⟨pointCols,
        (msp.filter DxfEntity.isPointEnt).map dxfPointRowT ++
        (msp.filter DxfEntity.isInsertEnt).map dxfInsertRowT⟩ ∧
      ((msp.filter DxfEntity.isPointEnt).map dxfPointRowT ++
        (msp.filter DxfEntity.isInsertEnt).map dxfInsertRowT).length =
        (msp.filter DxfEntity.isPointEnt).length +
        (msp.filter DxfEntity.isInsertEnt).length ∧
      (∀ r ∈ (msp.filter DxfEntity.isPointEnt).map dxfPointRowT,
        r.source = "DXF/POINT") ∧
      (∀ r ∈ (msp.filter DxfEntity.isInsertEnt).map dxfInsertRowT,
        r.source = "DXF/INSERT") := by
  intro msp
  refine ⟨parse_dxf_ok msp, by simp, ?_, ?_⟩
  · intro r hr
    obtain ⟨x, hx, rfl⟩ := List.mem_map.mp hr
    have hp := List.of_mem_filter hx
    cases x <;> simp_all [dxfPointRowT, DxfEntity.isPointEnt]
  · intro r hr
    obtain ⟨x, hx, rfl⟩ := List.mem_map.mp hr
    have hp := List.of_mem_filter hx
    cases x <;> simp_all [dxfInsertRowT, DxfEntity.isInsertEnt]

/-- Witness for C4: one point and one block reference give the two
records in order. -/
theorem claim_C4_dxf_points_then_inserts_witness :
    parse_dxf_points true
        (some [DxfEntity.point "1A" 1 2 3, DxfEntity.insert "PILE" "2B" 4 5 6]) =
      .ok ⟨pointCols,
        (([DxfEntity.point "1A" 1 2 3,
           DxfEntity.insert "PILE" "2B" 4 5 6].filter DxfEntity.isPointEnt).map dxfPointRowT ++
         ([DxfEntity.point "1A" 1 2 3,
           DxfEntity.insert "PILE" "2B" 4 5 6].filter DxfEntity.isInsertEnt).map dxfInsertRowT)⟩ :=
  (claim_C4_dxf_points_then_inserts
    [DxfEntity.point "1A" 1 2 3, DxfEntity.insert "PILE" "2B" 4 5 6]).1

/-- Claim C3: an archive that opens is scanned member by member in
listing order; each `.xml`-named member (case-insensitive) contributes
the LandXML extraction of its bytes, failed members contribute nothing,
and the result concatenates the contributions in member order with
member-internal order preserved.  Two parsable XML members contribute
the sum of their point counts. -/
theorem claim_C3_lok_member_concat :
    (∀ members : List ZipMember,
      parse_lok_points (some members) = ⟨pointCols, members.flatMap lokMemberRows⟩) ∧
    (∀ (n1 n2 : String) (r1 r2 : Element),
      pyEndsWith (pyLower n1) ".xml" = true →
      pyEndsWith (pyLower n2) ".xml" = true →
      (parse_lok_points (some [⟨n1, some r1⟩, ⟨n2, some r2⟩])).rows =
        (parse_landxml_points_root r1).rows ++ (parse_landxml_points_root r2).rows ∧
      (parse_lok_points (some [⟨n1, some r1⟩, ⟨n2, some r2⟩])).rows.length =
        (parse_landxml_points_root r1).rows.length +
        (parse_landxml_points_root r2).rows.length) := by
  refine ⟨parse_lok_rows, ?_⟩
  intro n1 n2 r1 r2 h1 h2
  have hrows : (parse_lok_points (some [⟨n1, some r1⟩, ⟨n2, some r2⟩])).rows =
      (parse_landxml_points_root r1).rows ++ (parse_landxml_points_root r2).rows := by
    rw [parse_lok_rows]
    show ([⟨n1, some r1⟩, ⟨n2, some r2⟩] : List ZipMember).flatMap lokMemberRows = _
    simp only [List.flatMap_cons, List.flatMap_nil, List.append_nil]
    unfold lokMemberRows
    simp [h1, h2]
  exact ⟨hrows, by rw [hrows]; simp⟩

/-- Witness for C3: an archive with a one-point member and a two-point
member yields their three rows in order. -/
theorem claim_C3_lok_member_concat_witness :
    (parse_lok_points (some [⟨"m1.xml", some (exDoc "u")⟩, ⟨"M2.XML", some exDocTwo⟩])).rows =
      (parse_landxml_points_root (exDoc "u")).rows ++
      (parse_landxml_points_root exDocTwo).rows ∧
    (parse_lok_points (some [⟨"m1.xml", some (exDoc "u")⟩, ⟨"M2.XML", some exDocTwo⟩])).rows.length =
      (parse_landxml_points_root (exDoc "u")).rows.length +
      (parse_landxml_points_root exDocTwo).rows.length :=
  claim_C3_lok_member_concat.2 "m1.xml" "M2.XML" (exDoc "u") exDocTwo
    (by decide) (by decide)

/-- Claim C5: a matched element with fewer than three tokens, or whose
first three tokens do not all convert, contributes no row, and the rest
of the scan is unaffected: the result is exactly the rows of the
elements before and after it, and every valid later element still
appears. -/
theorem claim_C5_invalid_element_skipped :
    ∀ (root : Element) (l1 l2 : List Element) (bad : Element),
      findallDesc root (cgTarget root) = l1 ++ bad :: l2 →
      ((cgTokens bad).length < 3 ∨
        pyFloat? ((cgTokens bad).getD 0 "") = none ∨
        pyFloat? ((cgTokens bad).getD 1 "") = none ∨
        pyFloat? ((cgTokens bad).getD 2 "") = none) →
      parse_landxml_points (some root) =
        .ok ⟨pointCols, l1.filterMap cgRow? ++ l2.filterMap cgRow?⟩ ∧
      ∀ cg ∈ l2, cgValid cg →
        cgRowOf cg ∈ l1.filterMap cgRow? ++ l2.filterMap cgRow? := by
  intro root l1 l2 bad hsplit hbad
  have hnone : cgRow? bad = none := cgRow?_eq_none hbad
  constructor
  · have hp : parse_landxml_points (some root) =
        .ok (parse_landxml_points_root root) := rfl
    rw [hp, parse_landxml_rows, hsplit, List.filterMap_append]
    simp [List.filterMap_cons, hnone]
  · intro cg hcg hv
    exact List.mem_append_right _ (List.mem_filterMap.mpr ⟨cg, hcg, cgRow?_eq_some hv⟩)

/-- Witness for C5: a two-token element is dropped while the valid
element after it is still extracted. -/
theorem claim_C5_invalid_element_skipped_witness :
    parse_landxml_points (some exDocMixed) =
      .ok ⟨pointCols, List.filterMap cgRow? [] ++ List.filterMap cgRow? [exCgGood]⟩ :=
  (claim_C5_invalid_element_skipped exDocMixed [] [exCgGood] exCgBad
    (by rfl) (by decide)).1

/-- Claim C10: a matched element with missing (or empty) text is read as
zero tokens through the total `cg.text or ""` access, so it is skipped
without any error and the surrounding elements parse as usual. -/
theorem claim_C10_textless_skipped :
    ∀ (root : Element) (l1 l2 : List Element) (e : Element),
      findallDesc root (cgTarget root) = l1 ++ e :: l2 →
      (e.text = none ∨ e.text = some "") →
      cgTokens e = [] ∧ cgRow? e = none ∧
      parse_landxml_points (some root) =
        .ok ⟨pointCols, l1.filterMap cgRow? ++ l2.filterMap cgRow?⟩ := by
  intro root l1 l2 e hsplit htext
  have htok : cgTokens e = [] := by
    rcases htext with h | h <;> (unfold cgTokens; rw [h]) <;> rfl
  have hnone : cgRow? e = none := cgRow?_eq_none (Or.inl (by rw [htok]; decide))
  refine ⟨htok, hnone, ?_⟩
  have hp : parse_landxml_points (some root) =
      .ok (parse_landxml_points_root root) := rfl
  rw [hp, parse_landxml_rows, hsplit, List.filterMap_append]
  simp [List.filterMap_cons, hnone]

/-- Witness for C10: a textless element is skipped and the valid element
after it still appears. -/
theorem claim_C10_textless_skipped_witness :
    cgTokens exCgNoText = [] ∧ cgRow? exCgNoText = none ∧
    parse_landxml_points (some exDocNoText) =
      .ok ⟨pointCols, List.filterMap cgRow? [] ++ List.filterMap cgRow? [exCgGood]⟩ :=
  claim_C10_textless_skipped exDocNoText [] [exCgGood] exCgNoText
    (by rfl) (Or.inl rfl)

/-- Claim C1: when every matched `CgPoint` element carries at least three
convertible tokens, the parser returns one record per element in document
order, tagged `LandXML`, with Easting, Northing, Elevation taken
positionally from the first three tokens; and the example document with
the single element `<CgPoint name="P1">100.0 200.0 5.5</CgPoint>` under
any namespace yields exactly the record
`(P1, 100, 200, 11/2, LandXML)`. -/
theorem claim_C1_landxml_all_valid :
    (∀ root : Element,
      (∀ cg ∈ findallDesc root (cgTarget root), cgValid cg) →
      parse_landxml_points (some root) =
        .ok ⟨pointCols, (findallDesc root (cgTarget root)).map cgRowOf⟩ ∧
      ((findallDesc root (cgTarget root)).map cgRowOf).length =
        (findallDesc root (cgTarget root)).length ∧
      ∀ r ∈ (findallDesc root (cgTarget root)).map cgRowOf, r.source = "LandXML") ∧
    (∀ uri : String, plainUri uri →
      parse_landxml_points (some (exDoc uri)) =
        .ok ⟨pointCols, [⟨"P1", 100, 200, 11 / 2, "LandXML"⟩]⟩) := by
  constructor
  · intro root h
    have hmap : (findallDesc root (cgTarget root)).filterMap cgRow? =
        (findallDesc root (cgTarget root)).map cgRowOf :=
      List.filterMap_eq_map_iff_forall_eq_some.mpr
        (fun cg hcg => cgRow?_eq_some (h cg hcg))
    refine ⟨?_, by simp, ?_⟩
    · have hp : parse_landxml_points (some root) =
          .ok (parse_landxml_points_root root) := rfl
      rw [hp, parse_landxml_rows, hmap]
    · intro r hr
      obtain ⟨cg, _, rfl⟩ := List.mem_map.mp hr
      rfl
  · intro uri hu
    obtain ⟨hb, hd⟩ := hu
    have htag : cgTarget (exDoc uri) = "\x7b" ++ uri ++ "\x7d" ++ "CgPoint" := by
      unfold cgTarget
      rw [show (exDoc uri).tag = "\x7b" ++ uri ++ "\x7d" ++ "LandXML" from rfl]
      rw [ns_detect uri "LandXML" hb hd]
    have hfind : findallDesc (exDoc uri) (cgTarget (exDoc uri)) =
        [Element.mk ("\x7b" ++ uri ++ "\x7d" ++ "CgPoint") [("name", "P1")]
          (some "100.0 200.0 5.5") []] := by
      rw [htag]
      unfold findallDesc exDoc
      rw [show (Element.mk ("\x7b" ++ uri ++ "\x7d" ++ "LandXML") [] none
          [Element.mk ("\x7b" ++ uri ++ "\x7d" ++ "CgPoint") [("name", "P1")]
            (some "100.0 200.0 5.5") []]).descendants =
        [Element.mk ("\x7b" ++ uri ++ "\x7d" ++ "CgPoint") [("name", "P1")]
          (some "100.0 200.0 5.5") []] from rfl]
      simp [List.filter_cons, Element.tag]
    have hrow : cgRow? (Element.mk ("\x7b" ++ uri ++ "\x7d" ++ "CgPoint")
        [("name", "P1")] (some "100.0 200.0 5.5") []) =
        some ⟨"P1", 100, 200, mkQ 11 2, "LandXML"⟩ := by
      rw [cgRow?_mk_tag ("\x7b" ++ uri ++ "\x7d" ++ "CgPoint") "t" [("name", "P1")]
        (some "100.0 200.0 5.5") [] []]
      decide
    have hp : parse_landxml_points (some (exDoc uri)) =
        .ok (parse_landxml_points_root (exDoc uri)) := rfl
    rw [hp, parse_landxml_rows, hfind]
    simp [List.filterMap_cons, hrow, mkQ_11_2]

/-- Witness for C1: the example document in the concrete namespace `u`,
through both the example clause and the general clause. -/
theorem claim_C1_landxml_all_valid_witness :
    parse_landxml_points (some (exDoc "u")) =
      .ok ⟨pointCols, [⟨"P1", 100, 200, 11 / 2, "LandXML"⟩]⟩ ∧
    parse_landxml_points (some (exDoc "u")) =
      .ok ⟨pointCols, (findallDesc (exDoc "u") (cgTarget (exDoc "u"))).map cgRowOf⟩ :=
  ⟨claim_C1_landxml_all_valid.2 "u" ⟨by decide, by decide⟩,
   (claim_C1_landxml_all_valid.1 (exDoc "u") (by decide)).1⟩
